import Mathlib

/-!
Verification of the KMS display backend (`src/backend/kms/mod.rs`) of the
cosmic-comp Wayland compositor.

The Rust source is shallowly embedded below: device handles, connectors,
CRTCs and DRM nodes become natural-number identifiers, hash maps become
association lists iterated in insertion order, and the external
collaborators (session manager, drm ioctl helpers, the pixel-composition
routine, the shell/workspace model) become explicit oracle parameters whose
outcomes the embedded control flow inspects exactly where the source
inspects them.
-/

set_option autoImplicit false

/-- DRM node identity (`DrmNode`). -/
abbrev DrmNode := Nat

/-- CRTC handle (`crtc::Handle`). -/
abbrev CrtcHandle := Nat

/-- Connector handle (`connector::Handle`). -/
abbrev ConnHandle := Nat

/-- Event-loop registration token (`RegistrationToken`). -/
abbrev TokenId := Nat

/-- A connector-advertised display mode (`drm::control::Mode`).
`refresh` is the value the external helper `drm_helpers::calculate_refresh_rate`
computes for this mode; the helper lives outside this file's source, so the
computed rate is carried as data attached to the mode. -/
structure Mode where
  w : Nat
  h : Nat
  preferred : Bool
  refresh : Nat
deriving DecidableEq, Repr

/- ----------------------------------------------------------------
   4.4 Multi-GPU render-node selection (`render_node_for_output`)
   ---------------------------------------------------------------- -/

/-- `const MAX_CPU_COPIES: usize = 3;` -/
def MAX_CPU_COPIES : Nat := 3

/-- One step of the tally fold in `render_node_for_output`:
`let count = count_map.entry(node).or_insert(0); *count += 1;`.
The hash map is modelled as an association list in first-occurrence
(insertion) order. -/
def tallyInsert : List (DrmNode × Nat) → DrmNode → List (DrmNode × Nat)
  | [], n => [(n, 1)]
  | (k, c) :: rest, n =>
    if k = n then (k, c + 1) :: rest else (k, c) :: tallyInsert rest n

/-- The full tally `nodes.iter().fold(HashMap::new(), ...)`. -/
def tally (nodes : List DrmNode) : List (DrmNode × Nat) :=
  nodes.foldl tallyInsert []

/-- The reduction step `|a, b| if a.1 > b.1 { a } else { b }` (the pair's
second component is the count; Rust's tuple field `1` is Lean's `.2`). -/
def maxStep (a b : DrmNode × Nat) : DrmNode × Nat :=
  if a.2 > b.2 then a else b

/-- `.into_iter().reduce(|a, b| if a.1 > b.1 { a } else { b })` over the tally. -/
def reduceMaxCount : List (DrmNode × Nat) → Option (DrmNode × Nat)
  | [] => none
  | x :: xs => some (xs.foldl maxStep x)

/-- `render_node_for_output` (lines 697-733): the preference list `nodes` is the
flat-mapped list of client-preferred DRM nodes of the windows visible on the
output (computed by external shell/client queries and taken here as input);
`target_node` is the output's own device render node.  The guard transcribes
`nodes.contains(&target_node) || nodes.len() < MAX_CPU_COPIES`. -/
def render_node_for_output (target_node : DrmNode) (nodes : List DrmNode) : DrmNode :=
  if target_node ∈ nodes ∨ nodes.length < MAX_CPU_COPIES then
    target_node
  else
    match reduceMaxCount (tally nodes) with
    | some (node, _) => node
    | none => target_node

/-- Number of distinct nodes in a preference list; this follows the claim's
words ("distinct client-preferred nodes are observed"), for comparison with
the source, which counts preferences with multiplicity (`nodes.len()`). -/
def countDistinct : List DrmNode → Nat
  | [] => 0
  | n :: ns => (if n ∈ ns then 0 else 1) + countDistinct ns

/-- The count an association-list tally records for key `k`
(first matching entry, 0 when absent). -/
def cnt : List (DrmNode × Nat) → DrmNode → Nat
  | [], _ => 0
  | (k₀, c) :: rest, k => if k₀ = k then c else cnt rest k

/- ----------------------------------------------------------------
   Data model: Surface, Device, KmsState and the external oracles
   ---------------------------------------------------------------- -/

/-- Outcome of a fallible backend operation.  `error` models an
`anyhow::Error` return (carrying the context message raised at the failing
call site), `panicked` models a Rust panic (`unwrap`/out-of-bounds index). -/
inductive KOut (α : Type) where
  | ok : α → KOut α
  | error : String → KOut α
  | panicked : KOut α
deriving DecidableEq, Repr

/-- First-match association-list lookup, the model of `HashMap::get`. -/
def alookup {β : Type} : List (Nat × β) → Nat → Option β
  | [], _ => none
  | (k, v) :: rest, key => if k = key then some v else alookup rest key

/-- The mutable per-output configuration record (`config::OutputConfig`)
attached to each logical Output's user data.  Its fields mirror the ones the
KMS backend reads: `enabled`, `mode = ((w, h), Some(refresh))`, `vrr`,
`position`.  The struct itself lives in `src/config` (outside this file's
source); only the fields used here are modelled. -/
structure OutputConfig where
  enabled : Bool
  modeW : Nat
  modeH : Nat
  refreshTarget : Option Nat
  vrr : Bool
  position : Int × Int
deriving DecidableEq, Repr

/-- A published logical Output (`smithay::wayland::output::Output`) together
with its attached `RefCell<OutputConfig>` user data.  `id` stands for the
object identity by which `s.output == *output` compares. -/
structure OutputModel where
  id : Nat
  name : String
  make : String
  model : String
  physSize : Nat × Nat
  modesAdvertised : List (Nat × Nat × Nat)
  preferredMode : Nat × Nat × Nat
  currentMode : Option (Nat × Nat × Nat)
  position : Int × Int
  config : OutputConfig
deriving DecidableEq, Repr

/-- The `GbmBufferedSurface` a Surface optionally owns: its active drm mode,
how often `reset_buffers` has been called on it, and whether a queued frame
awaits its page-flip completion. -/
structure Swapchain where
  mode : Mode
  resetCount : Nat
  queued : Bool
deriving DecidableEq, Repr

/-- `Surface` (lines 85-97).  `last_render`/`last_submit` only record
presence of the corresponding timestamped data. -/
structure Surface where
  connector : ConnHandle
  output : OutputModel
  surface : Option Swapchain
  last_render : Bool
  last_submit : Bool
  refresh_rate : Nat
  vrr : Bool
  pending : Bool
  render_timer_token : Option TokenId
deriving DecidableEq, Repr

/-- The per-device client resource endpoint (`socket.rs`): its event-loop
token and its two wayland globals. -/
structure Socket where
  token : TokenId
  dmabuf_global : Nat
  drm_global : Nat
deriving DecidableEq, Repr

/-- `Device` (lines 74-83).  `connectors` carries the hardware readout the
embedded code obtains through `drm.get_connector`: the advertised mode list
per connector handle.  The allocator, drm dispatcher and format set have no
observable state at the level of the claims and are omitted. -/
structure Device where
  render_node : DrmNode
  surfaces : List (CrtcHandle × Surface)
  connectors : List (ConnHandle × List Mode)
  supports_atomic : Bool
  event_token : Option TokenId
  socket : Option Socket
deriving DecidableEq, Repr

/-- The backend state (`KmsState`) plus the event-loop and registry facts the
claims observe: registered render-timer sources (`timers`), other event-loop
registrations (`loopRegs`), live wayland globals, the number of
configuration read/merge/write cycles run (`configCycles`), the session
activity flag, and a fresh-token counter for new registrations. -/
structure KmsState where
  devices : List (DrmNode × Device)
  shellOutputs : List Nat
  heads : List Nat
  timers : List TokenId
  loopRegs : List TokenId
  globals : List Nat
  configCycles : Nat
  sessionActive : Bool
  nextToken : TokenId
deriving DecidableEq, Repr

/-- Outcomes of the external collaborators invoked by `apply_config_for_output`,
`render_output` and the render-timer callback: `drm_helpers::set_vrr`
(`none` = Err), `GbmBufferedSurface::use_mode`, `drm.create_surface`,
`GbmBufferedSurface::new`, `render::needs_buffer_reset`,
`next_buffer`, `Bind::bind`, `render::render_output`, `queue_buffer`. -/
structure Externals where
  setVrr : CrtcHandle → ConnHandle → Bool → Option Bool
  useMode : Mode → Bool
  createDrmSurface : CrtcHandle → Mode → ConnHandle → Bool
  gbmSurfaceNew : Bool
  needsBufferReset : Bool
  nextBuffer : Bool
  bindOk : Bool
  renderOk : Bool
  queueOk : Bool

/- ----------------------------------------------------------------
   4.5 Render scheduling (`KmsState::schedule_render`, lines 953-1013)
   ---------------------------------------------------------------- -/

/-- The surface half of the `find` in `schedule_render`: walk a device's
surfaces in iteration order, and at the first surface publishing the wanted
output either bail out (no swapchain / already pending) or mark it pending
and store the freshly inserted timer token.  `none` means no surface of this
device owns the output; the `Bool` reports whether a timer was registered. -/
def scheduleSurfs (tok : TokenId) (oid : Nat) :
    List (CrtcHandle × Surface) → Option (List (CrtcHandle × Surface) × Bool)
  | [] => none
  | (c, s) :: rest =>
    if s.output.id = oid then
      if s.surface.isNone then some ((c, s) :: rest, false)
      else if s.pending then some ((c, s) :: rest, false)
      else some ((c, { s with pending := true, render_timer_token := some tok }) :: rest, true)
    else (scheduleSurfs tok oid rest).map (fun lb => ((c, s) :: lb.1, lb.2))

/-- The device half of the `flat_map`/`find` in `schedule_render`. -/
def scheduleDevs (tok : TokenId) (oid : Nat) :
    List (DrmNode × Device) → Option (List (DrmNode × Device) × Bool)
  | [] => none
  | (n, d) :: rest =>
    match scheduleSurfs tok oid d.surfaces with
    | some (surfs, b) => some ((n, { d with surfaces := surfs }) :: rest, b)
    | none => (scheduleDevs tok oid rest).map (fun lb => ((n, d) :: lb.1, lb.2))

/-- `KmsState::schedule_render`: a no-op unless a surface owning the output is
found with a swapchain and no pending render, in which case the surface is
marked pending and an immediately-firing timer source is registered (the
`insert_source` registration itself is assumed to succeed; its `InsertError`
is out of the claims' scope). -/
def schedule_render (st : KmsState) (oid : Nat) : KmsState :=
  match scheduleDevs st.nextToken oid st.devices with
  | none => st
  | some (_, false) => st
  | some (devs, true) =>
    { st with
      devices := devs
      timers := st.timers ++ [st.nextToken]
      nextToken := st.nextToken + 1 }

/- ----------------------------------------------------------------
   4.3 `KmsState::apply_config_for_output` (lines 793-898)
   ---------------------------------------------------------------- -/

/-- The refresh-distance key of the mode-selection `min_by_key`:
`(output_config.mode.1.unwrap() as i32 - refresh_rate as i32).abs()`.
Refresh rates are u32 millihertz values far below `i32::MAX`, so the i32
arithmetic is modelled on unbounded integers. -/
def refreshKey (target refresh : Nat) : Nat :=
  ((target : Int) - (refresh : Int)).natAbs

/-- One step of Rust's `Iterator::min_by_key` (which keeps the first of
equally-minimal elements): the accumulator is replaced only by a strictly
smaller key. -/
def minStep (key : Mode → Nat) (a b : Mode) : Mode :=
  if key b < key a then b else a

/-- The `filter` of `apply_config_for_output`'s mode selection: connector
modes whose size equals the configured resolution exactly. -/
def modeCandidates (modes : List Mode) (cfg : OutputConfig) : List Mode :=
  modes.filter (fun m => m.w == cfg.modeW && m.h == cfg.modeH)

/-- The shell mutation performed inside `apply_config_for_output`:
`shell.remove_output` when a swapchain of a disabled output is dropped,
`shell.add_output` when a fresh swapchain is created. -/
inductive ShellAct where
  | removeOut
  | addOut
deriving DecidableEq, Repr

def applyShellAct : Option ShellAct → Nat → List Nat → List Nat
  | none, _, l => l
  | some ShellAct.removeOut, oid, l => l.erase oid
  | some ShellAct.addOut, oid, l => l ++ [oid]

/-- First surface of a device publishing the wanted output
(`surfaces.iter_mut().find(|(_, s)| s.output == *output)`). -/
def findOwnerSurf (oid : Nat) : List (CrtcHandle × Surface) → Option (CrtcHandle × Surface)
  | [] => none
  | (c, s) :: rest => if s.output.id = oid then some (c, s) else findOwnerSurf oid rest

/-- First device owning the output together with the owning surface
(`devices.values_mut().find(|dev| dev.surfaces.values().any(...))` followed by
the inner `find(...).unwrap()`; a device owns the output exactly when the
inner find succeeds, so the two-step search collapses to this). -/
def findOwner (oid : Nat) : List (DrmNode × Device) → Option (DrmNode × Device × CrtcHandle × Surface)
  | [] => none
  | (n, d) :: rest =>
    match findOwnerSurf oid d.surfaces with
    | some (c, s) => some (n, d, c, s)
    | none => findOwner oid rest

/-- Write back the in-place mutation of the owning surface: replace the first
surface publishing the output. -/
def replaceOwnerSurf (oid : Nat) (s' : Surface) :
    List (CrtcHandle × Surface) → List (CrtcHandle × Surface)
  | [] => []
  | (c, s) :: rest =>
    if s.output.id = oid then (c, s') :: rest
    else (c, s) :: replaceOwnerSurf oid s' rest

def replaceOwner (oid : Nat) (s' : Surface) :
    List (DrmNode × Device) → List (DrmNode × Device)
  | [] => []
  | (n, d) :: rest =>
    match findOwnerSurf oid d.surfaces with
    | some _ => (n, { d with surfaces := replaceOwnerSurf oid s' d.surfaces }) :: rest
    | none => (n, d) :: replaceOwner oid s' rest

/-- The per-surface body of `apply_config_for_output` (lines 816-882),
computing the updated surface, the shell mutation, and the `recreated`
flag or the propagated error.  The configuration is read from the output's
attached record (`output.user_data().get::<RefCell<OutputConfig>>()`). -/
def applySurface (connectors : List (ConnHandle × List Mode)) (crtc : CrtcHandle)
    (s : Surface) (test_only : Bool) (ext : Externals) :
    Surface × Option ShellAct × KOut Bool :=
  let cfg := s.output.config
  if ¬ cfg.enabled then
    if ¬ test_only then
      match s.surface with
      | some _ => ({ s with surface := none }, some ShellAct.removeOut, KOut.ok false)
      | none => (s, none, KOut.ok false)
    else (s, none, KOut.ok false)
  else
    match alookup connectors s.connector with
    | none => (s, none, KOut.error "get_connector failed")
    | some modes =>
      match modeCandidates modes cfg with
      | [] => (s, none, KOut.error "Unknown mode")
      | c :: cs =>
        match cfg.refreshTarget with
        | none => (s, none, KOut.panicked)
        | some target =>
          let mode := cs.foldl (minStep (fun m => refreshKey target m.refresh)) c
          if ¬ test_only then
            match s.surface with
            | some sw =>
              match (if cfg.vrr ≠ s.vrr then
                       match ext.setVrr crtc s.connector cfg.vrr with
                       | none => KOut.error "set_vrr failed"
                       | some v => KOut.ok v
                     else KOut.ok s.vrr) with
              | KOut.ok v =>
                if ext.useMode mode then
                  ({ s with vrr := v, surface := some { sw with mode := mode } },
                    none, KOut.ok false)
                else ({ s with vrr := v }, none, KOut.panicked)
              | KOut.error e => (s, none, KOut.error e)
              | KOut.panicked => (s, none, KOut.panicked)
            | none =>
              let v := (ext.setVrr crtc s.connector cfg.vrr).getD false
              let s1 := { s with vrr := v, refresh_rate := mode.refresh }
              if ext.createDrmSurface crtc mode s.connector then
                if ext.gbmSurfaceNew then
                  ({ s1 with surface := some { mode := mode, resetCount := 0, queued := false } },
                    some ShellAct.addOut, KOut.ok true)
                else (s1, none, KOut.error "Failed to initialize Gbm surface")
              else (s1, none, KOut.error "create_surface failed")
          else (s, none, KOut.ok false)

/-- `KmsState::apply_config_for_output`.  The returned `KOut Bool` carries the
internal `recreated` flag on success (the source returns `Ok(())`; the flag's
sole observable effect is the immediate `schedule_render`, which the model
performs as the source does).  `shell.refresh_outputs()` is an external
query-refresh with no state in this model. -/
def apply_config_for_output (st : KmsState) (ext : Externals) (oid : Nat)
    (test_only : Bool) : KmsState × KOut Bool :=
  match findOwner oid st.devices with
  | none => (st, KOut.ok false)
  | some (_, d, crtc, s) =>
    match applySurface d.connectors crtc s test_only ext with
    | (s', act, KOut.ok recreated) =>
      let st1 := { st with
        devices := replaceOwner oid s' st.devices
        shellOutputs := applyShellAct act oid st.shellOutputs }
      (if recreated then schedule_render st1 oid else st1, KOut.ok recreated)
    | (s', act, KOut.error e) =>
      ({ st with
         devices := replaceOwner oid s' st.devices
         shellOutputs := applyShellAct act oid st.shellOutputs }, KOut.error e)
    | (s', act, KOut.panicked) =>
      ({ st with
         devices := replaceOwner oid s' st.devices
         shellOutputs := applyShellAct act oid st.shellOutputs }, KOut.panicked)

/-- 1920x1080 at 59.94 Hz (refresh rates in millihertz, as
`calculate_refresh_rate` yields). -/
def mode5994 : Mode := { w := 1920, h := 1080, preferred := false, refresh := 59940 }

def mode6000 : Mode := { w := 1920, h := 1080, preferred := true, refresh := 60000 }

def mode7500 : Mode := { w := 1920, h := 1080, preferred := false, refresh := 75000 }

def cfg1080p60 : OutputConfig :=
  { enabled := true, modeW := 1920, modeH := 1080, refreshTarget := some 60000,
    vrr := false, position := (0, 0) }

def out1080p60 : OutputModel :=
  { id := 5, name := "DP-1", make := "MK", model := "MD", physSize := (600, 340),
    modesAdvertised := [(1920, 1080, 59940), (1920, 1080, 60000), (1920, 1080, 75000)],
    preferredMode := (1920, 1080, 60000), currentMode := some (1920, 1080, 60000),
    position := (0, 0), config := cfg1080p60 }

def surf1080 : Surface :=
  { connector := 1, output := out1080p60, surface := none, last_render := false,
    last_submit := false, refresh_rate := 60000, vrr := false, pending := false,
    render_timer_token := none }

def dev1080 : Device :=
  { render_node := 0, surfaces := [(0, surf1080)],
    connectors := [(1, [mode5994, mode6000, mode7500])], supports_atomic := true,
    event_token := some 100, socket := none }

def st1080 : KmsState :=
  { devices := [(0, dev1080)], shellOutputs := [], heads := [5], timers := [],
    loopRegs := [100], globals := [], configCycles := 0, sessionActive := true,
    nextToken := 10 }

/-- A configuration whose resolution no connector mode matches. -/
def cfgNoMatch : OutputConfig :=
  { enabled := true, modeW := 800, modeH := 600, refreshTarget := some 60000,
    vrr := false, position := (0, 0) }

def outNoMatch : OutputModel := { out1080p60 with id := 7, config := cfgNoMatch }

def surfNoMatch : Surface := { surf1080 with output := outNoMatch }

def devNoMatch : Device := { dev1080 with surfaces := [(0, surfNoMatch)] }

def stNoMatch : KmsState := { st1080 with devices := [(0, devNoMatch)], heads := [7] }

/-- All-success external outcomes. -/
def extSample : Externals :=
  { setVrr := fun _ _ b => some b, useMode := fun _ => true,
    createDrmSurface := fun _ _ _ => true, gbmSurfaceNew := true,
    needsBufferReset := false, nextBuffer := true, bindOk := true,
    renderOk := true, queueOk := true }

/-- A ready-to-render sample state: the tracked surface has a swapchain and
no pending render. -/
def swSample : Swapchain := { mode := mode6000, resetCount := 0, queued := false }

def surfReady : Surface := { surf1080 with surface := some swSample }

def devReady : Device := { dev1080 with surfaces := [(0, surfReady)] }

def stReady : KmsState := { st1080 with devices := [(0, devReady)] }

/- ----------------------------------------------------------------
   4.5 `Surface::render_output` (lines 736-785), the render-timer
   callback (lines 990-1008) and the VBlank handler (lines 364-388)
   ---------------------------------------------------------------- -/

/-- `Surface::render_output`.  Returns the updated surface and `some msg` on
failure (`anyhow` context of the failing call).  The render-node choice and
`api.renderer(..).unwrap()` have no effect on the modelled state; the
buffer/age pair itself is external.  Note the source calls `reset_buffers`
only in the `render::render_output` error arm — not when `next_buffer` or
`bind` fail. -/
def render_output (s : Surface) (ext : Externals) : Surface × Option String :=
  match s.surface with
  | none => (s, none)
  | some sw =>
    let sw1 := if ext.needsBufferReset then { sw with resetCount := sw.resetCount + 1 } else sw
    if ¬ ext.nextBuffer then
      ({ s with surface := some sw1 }, some "Failed to allocate buffer")
    else if ¬ ext.bindOk then
      ({ s with surface := some sw1 }, some "Failed to bind buffer")
    else if ext.renderOk then
      if ext.queueOk then
        ({ s with surface := some { sw1 with queued := true }, last_render := true }, none)
      else
        ({ s with surface := some sw1, last_render := true },
          some "Failed to submit buffer for display")
    else
      ({ s with surface := some { sw1 with resetCount := sw1.resetCount + 1 } },
        some "Rendering failed")

/-- A calloop timer callback's verdict: deregister the timer, or re-arm it
after the given number of seconds. -/
inductive TimeoutAction where
  | drop
  | toDuration (seconds : ℚ)
deriving DecidableEq, Repr

def lookupSurface (devices : List (DrmNode × Device)) (node : DrmNode)
    (crtc : CrtcHandle) : Option Surface :=
  match alookup devices node with
  | none => none
  | some d => alookup d.surfaces crtc

def setSurfAt (crtc : CrtcHandle) (s' : Surface) :
    List (CrtcHandle × Surface) → List (CrtcHandle × Surface)
  | [] => []
  | (c, s) :: rest =>
    if c = crtc then (c, s') :: rest else (c, s) :: setSurfAt crtc s' rest

def setDevSurf (node : DrmNode) (crtc : CrtcHandle) (s' : Surface) :
    List (DrmNode × Device) → List (DrmNode × Device)
  | [] => []
  | (n, d) :: rest =>
    if n = node then (n, { d with surfaces := setSurfAt crtc s' d.surfaces }) :: rest
    else (n, d) :: setDevSurf node crtc s' rest

/-- The render-timer callback registered by `schedule_render` (closure over
the device node and CRTC; `token` is the timer's own registration).  On a
render error it logs and re-arms the timer after
`Duration::from_secs_f64(1.0 / surface.refresh_rate as f64)`; otherwise (and
when device or surface have meanwhile disappeared) it returns
`TimeoutAction::Drop`, deregistering the timer — without touching
`pending`. -/
def fireTimer (st : KmsState) (ext : Externals) (node : DrmNode) (crtc : CrtcHandle)
    (token : TokenId) : KmsState × TimeoutAction :=
  match lookupSurface st.devices node crtc with
  | none => ({ st with timers := st.timers.erase token }, TimeoutAction.drop)
  | some s =>
    match render_output s ext with
    | (s', none) =>
      ({ st with
         devices := setDevSurf node crtc s' st.devices
         timers := st.timers.erase token }, TimeoutAction.drop)
    | (s', some _) =>
      ({ st with devices := setDevSurf node crtc s' st.devices },
        TimeoutAction.toDuration (1 / (s'.refresh_rate : ℚ)))

/-- The `DrmEvent::VBlank` arm of the device event dispatcher: on a confirmed
`frame_submitted` the completion time is recorded and `pending` cleared; on
an error it only logs; with no swapchain ("got disabled") nothing happens. -/
def vblankEvent (st : KmsState) (node : DrmNode) (crtc : CrtcHandle)
    (submitOk : Bool) : KmsState :=
  match lookupSurface st.devices node crtc with
  | none => st
  | some s =>
    match s.surface with
    | none => st
    | some sw =>
      if submitOk then
        let s' : Surface :=
          { s with
            surface := some { sw with queued := false }
            last_submit := true
            pending := false }
        { st with devices := setDevSurf node crtc s' st.devices }
      else st

/-- External outcomes with a failing buffer acquisition. -/
def extNoBuf : Externals := { extSample with nextBuffer := false }

/-- External outcomes with a failing composition. -/
def extRenderFail : Externals := { extSample with renderOk := false }

/-- The C3 trace state: one tracked device (node 0) with one surface
(CRTC 0, output id 5) owning a swapchain, not pending, with the output's
attached configuration meanwhile disabled by the configuration subsystem. -/
def cfgDisabled : OutputConfig := { cfg1080p60 with enabled := false }

def outDisabled : OutputModel := { out1080p60 with config := cfgDisabled }

def surfC3 : Surface := { surf1080 with output := outDisabled, surface := some swSample }

def devC3 : Device := { dev1080 with surfaces := [(0, surfC3)] }

def stC3 : KmsState := { st1080 with devices := [(0, devC3)], shellOutputs := [5] }

/- ----------------------------------------------------------------
   4.2 `Device::enumerate_surfaces` (lines 587-612)
   ---------------------------------------------------------------- -/

structure OutputChanges where
  added : List (CrtcHandle × ConnHandle)
  removed : List CrtcHandle
deriving DecidableEq, Repr

/-- The device's existing CRTC→connector view
(`self.surfaces.iter().map(|(c, s)| (*c, s.connector)).collect()`). -/
def surfacePairs (d : Device) : List (CrtcHandle × ConnHandle) :=
  d.surfaces.map (fun cs => (cs.1, cs.2.connector))

/-- `Device::enumerate_surfaces`.  `config` is the fresh hardware
connector→CRTC mapping returned by the external
`drm_helpers::display_configuration(drm, supports_atomic)`.  Pure diff, no
side effects on the surface map. -/
def enumerate_surfaces (d : Device) (config : List (ConnHandle × CrtcHandle)) :
    OutputChanges :=
  { added := (config.filter (fun p =>
      match alookup (surfacePairs d) p.2 with
      | some c => decide (c ≠ p.1)
      | none => true)).map (fun p => (p.2, p.1))
    removed := ((surfacePairs d).filter (fun p =>
      match alookup config p.2 with
      | some c => decide (c ≠ p.1)
      | none => true)).map Prod.fst }

/- ----------------------------------------------------------------
   4.3 `Device::setup_surface` (lines 614-692)
   ---------------------------------------------------------------- -/

/-- The active-mode selection of `setup_surface` (lines 626-633):
`crtc_info.mode()` if present, else the connector mode flagged PREFERRED,
else `conn_info.modes()[0]` — the indexing panics when the advertised mode
list is empty, which `none` records here. -/
def pickInitialMode (crtcMode : Option Mode) (modes : List Mode) : Option Mode :=
  match crtcMode with
  | some m => some m
  | none =>
    match modes.find? (fun m => m.preferred) with
    | some m => some m
    | none => modes[0]?

/-- Per-call outcomes of the externals `setup_surface` consults:
`drm.get_crtc` and the CRTC's programmed mode, `drm_helpers::set_vrr`
(Err modelled as `none`, degraded to `false`), `drm_helpers::interface_name`,
`drm_helpers::edid_info` (manufacturer, model), `conn_info.size()`. -/
structure SetupExt where
  crtcOk : Bool
  crtcMode : Option Mode
  vrrResult : Option Bool
  interfaceName : Option String
  edidInfo : Option (String × String)
  physSize : Option (Nat × Nat)

/-- `HashMap::insert` on an association list: replace the key's entry or
append a fresh one. -/
def assocInsert {β : Type} (l : List (Nat × β)) (k : Nat) (v : β) : List (Nat × β) :=
  if (l.map Prod.fst).contains k then
    l.map (fun p => if p.1 = k then (k, v) else p)
  else l ++ [(k, v)]

/-- `Device::setup_surface`.  Connector info is read from the device's
`get_connector` table; the constructed logical Output advertises every
connector mode, marks the selected mode preferred and current, and gets the
configuration record attached (`insert_if_missing`; `OutputConfig::default()`
itself lives in the configuration subsystem outside this source — the fields
the source sets explicitly are `mode`, `vrr` and `position`, and the record
of a fresh Output starts from the default, whose remaining fields do not
matter to the claims; `enabled := true` is used here).  The new Surface has
no swapchain, `pending = false` and no timer token.  `oid` is the identity
of the freshly created Output object. -/
def setup_surface (d : Device) (sx : SetupExt) (crtc : CrtcHandle) (conn : ConnHandle)
    (position : Int × Int) (oid : Nat) : Device × KOut OutputModel :=
  if ¬ sx.crtcOk then (d, KOut.error "get_crtc failed")
  else
    match alookup d.connectors conn with
    | none => (d, KOut.error "get_connector failed")
    | some modes =>
      let vrr := sx.vrrResult.getD false
      match sx.interfaceName with
      | none => (d, KOut.error "interface_name failed")
      | some iface =>
        match sx.edidInfo with
        | none => (d, KOut.error "edid_info failed")
        | some edid =>
          match pickInitialMode sx.crtcMode modes with
          | none => (d, KOut.panicked)
          | some mode =>
            let refresh := mode.refresh
            let output : OutputModel :=
              { id := oid
                name := iface
                make := edid.1
                model := edid.2
                physSize := sx.physSize.getD (0, 0)
                modesAdvertised := modes.map (fun m => (m.w, m.h, m.refresh))
                preferredMode := (mode.w, mode.h, refresh)
                currentMode := some (mode.w, mode.h, refresh)
                position := position
                config :=
                  { enabled := true
                    modeW := mode.w
                    modeH := mode.h
                    refreshTarget := some refresh
                    vrr := vrr
                    position := position } }
            let s : Surface :=
              { connector := conn
                output := output
                surface := none
                last_render := false
                last_submit := false
                refresh_rate := refresh
                vrr := vrr
                pending := false
                render_timer_token := none }
            ({ d with surfaces := assocInsert d.surfaces crtc s }, KOut.ok output)

/-- A device whose connector 1 advertises no modes, and setup externals with
no CRTC-programmed mode: the panic case of C9. -/
def devEmptyConn : Device := { dev1080 with connectors := [(1, [])] }

def sxEmpty : SetupExt :=
  { crtcOk := true, crtcMode := none, vrrResult := some false,
    interfaceName := some "DP-1", edidInfo := some ("MK", "MD"),
    physSize := some (600, 340) }

/- ----------------------------------------------------------------
   4.1 Device lifecycle (`State::device_added` lines 309-468,
   `device_changed` lines 470-536, `device_removed` lines 538-578)
   ---------------------------------------------------------------- -/

/-- Cancel every listed surface's scheduled render
(`if let Some(token) = surface.render_timer_token { loop_handle.remove(token) }`). -/
def cancelTimers (surfs : List (CrtcHandle × Surface)) (ts : List TokenId) : List TokenId :=
  surfs.foldl (fun acc cs =>
    match cs.2.render_timer_token with
    | some t => acc.erase t
    | none => acc) ts

/-- One step of the per-pairing surface setup loop of `device_added` /
`device_changed`: accumulate the mutated device, the published outputs, the
left-to-right x position, and the fresh output identity; a failing
`setup_surface` only skips its output (logged in the source). -/
def setupStep (setups : CrtcHandle → ConnHandle → SetupExt)
    (acc : Device × List OutputModel × Int × Nat) (cc : CrtcHandle × ConnHandle) :
    Device × List OutputModel × Int × Nat :=
  match setup_surface acc.1 (setups cc.1 cc.2) cc.1 cc.2 (acc.2.2.1, 0) acc.2.2.2 with
  | (d', KOut.ok o) =>
    (d', acc.2.1 ++ [o], acc.2.2.1 + (o.config.modeW : Int), acc.2.2.2 + 1)
  | (d', _) => (d', acc.2.1, acc.2.2.1, acc.2.2.2)

/-- External outcomes of a `device_added` run: session `open`,
`DrmDevice::new`, atomic capability, `GbmDevice::new`, the EGL
display/device/context setup, `try_get_render_node`, the event-loop
dispatcher registration, the client resource endpoint attempt, the fresh
hardware enumeration, the per-connector mode readout, per-pairing setup
outcomes, per-output configuration externals, and the shell's current
global-space width used as the starting x position. -/
structure AddExt where
  openOk : Bool
  drmOk : Bool
  supportsAtomic : Bool
  gbmOk : Bool
  eglOk : Bool
  renderNode : Option DrmNode
  registerOk : Bool
  socketOk : Bool
  hardware : List (ConnHandle × CrtcHandle)
  connectors : List (ConnHandle × List Mode)
  setups : CrtcHandle → ConnHandle → SetupExt
  applyExt : Externals
  globalSpaceW : Int

/-- `State::device_added`.  A no-op while the session is inactive; otherwise
open the device, build the mode-setting and allocator handles, derive the
render node (each failure aborting the whole add with its context message),
register the completion-event stream, best-effort create the client
endpoint, enumerate and set up surfaces left to right (per-output failures
skipped), publish the outputs, apply known configuration to each, and run
the configuration read/merge/write cycle. -/
def device_added (st : KmsState) (aext : AddExt) (node : DrmNode) :
    KmsState × KOut Unit :=
  if ¬ st.sessionActive then (st, KOut.ok ())
  else if ¬ aext.openOk then
    (st, KOut.error "Failed to optain file descriptor for drm device")
  else if ¬ aext.drmOk then (st, KOut.error "Failed to initialize drm device")
  else if ¬ aext.gbmOk then (st, KOut.error "Failed to initialize GBM device")
  else if ¬ aext.eglOk then (st, KOut.error "Failed to create EGLDisplay")
  else
    match aext.renderNode with
    | none => (st, KOut.error "Failed to determine path of egl device")
    | some rn =>
      if ¬ aext.registerOk then
        (st, KOut.error "Failed to add drm device to event loop")
      else
        let evTok := st.nextToken
        let sockTok := st.nextToken + 1
        let g1 := st.nextToken + 2
        let g2 := st.nextToken + 3
        let socket : Option Socket :=
          if aext.socketOk then
            some { token := sockTok, dmabuf_global := g1, drm_global := g2 }
          else none
        let st1 : KmsState :=
          if aext.socketOk then
            { st with
              loopRegs := st.loopRegs ++ [evTok, sockTok]
              globals := st.globals ++ [g1, g2]
              nextToken := st.nextToken + 4 }
          else
            { st with
              loopRegs := st.loopRegs ++ [evTok]
              nextToken := st.nextToken + 4 }
        let dev0 : Device :=
          { render_node := rn, surfaces := [], connectors := aext.connectors,
            supports_atomic := aext.supportsAtomic, event_token := some evTok,
            socket := socket }
        let added := (enumerate_surfaces dev0 aext.hardware).added
        let res := added.foldl (setupStep aext.setups)
          (dev0, [], aext.globalSpaceW, st1.nextToken)
        let st2 : KmsState :=
          { st1 with
            devices := assocInsert st1.devices node res.1
            heads := st1.heads ++ res.2.1.map OutputModel.id
            nextToken := res.2.2.2 }
        let st3 := res.2.1.foldl
          (fun acc o => (apply_config_for_output acc aext.applyExt o.id false).1) st2
        ({ st3 with configCycles := st3.configCycles + 1 }, KOut.ok ())

/-- External outcomes of a `device_changed` run. -/
structure ChangeExt where
  hardware : List (ConnHandle × CrtcHandle)
  setups : CrtcHandle → ConnHandle → SetupExt
  applyExt : Externals
  globalSpaceW : Int

/-- `State::device_changed`.  A no-op while the session is inactive;
otherwise re-enumerate against the tracked device (a missing device skips
the per-surface work but the configuration cycle still runs), cancel the
removed surfaces' render timers, drop them from the device and the output
registry, set up and publish additions at the adjusted running width, apply
configuration to the new outputs, and run the configuration cycle. -/
def device_changed (st : KmsState) (cext : ChangeExt) (node : DrmNode) :
    KmsState × KOut Unit :=
  if ¬ st.sessionActive then (st, KOut.ok ())
  else
    match alookup st.devices node with
    | none => ({ st with configCycles := st.configCycles + 1 }, KOut.ok ())
    | some d =>
      let changes := enumerate_surfaces d cext.hardware
      let removedSurfs := d.surfaces.filter (fun cs => changes.removed.contains cs.1)
      let keptSurfs := d.surfaces.filter (fun cs => ! changes.removed.contains cs.1)
      let removedOids := removedSurfs.map (fun cs => cs.2.output.id)
      let wAfter := cext.globalSpaceW - removedSurfs.foldl (fun w cs =>
        w + (match cs.2.output.currentMode with | some m => (m.1 : Int) | none => 0)) 0
      let st1 : KmsState :=
        { st with
          devices := assocInsert st.devices node { d with surfaces := keptSurfs }
          timers := cancelTimers removedSurfs st.timers
          heads := st.heads.filter (fun h => ! removedOids.contains h) }
      let res := changes.added.foldl (setupStep cext.setups)
        ({ d with surfaces := keptSurfs }, [], wAfter, st1.nextToken)
      let st2 : KmsState :=
        { st1 with
          devices := assocInsert st1.devices node res.1
          heads := st1.heads ++ res.2.1.map OutputModel.id
          nextToken := res.2.2.2 }
      let st3 := res.2.1.foldl
        (fun acc o => (apply_config_for_output acc cext.applyExt o.id false).1) st2
      ({ st3 with configCycles := st3.configCycles + 1 }, KOut.ok ())

/-- The teardown half of `device_removed` (lines 541-562): cancel every
surface's scheduled render, drop the device, remove its event-stream
registration and, if present, the client endpoint's registration and its two
globals, and unpublish its outputs.  Runs whether or not the session is
active. -/
def removeDeviceState (st : KmsState) (node : DrmNode) : KmsState :=
  match alookup st.devices node with
  | none => st
  | some d =>
    let loopRegs1 :=
      match d.event_token with
      | some t => st.loopRegs.erase t
      | none => st.loopRegs
    let loopRegs2 :=
      match d.socket with
      | some sk => loopRegs1.erase sk.token
      | none => loopRegs1
    let globals1 :=
      match d.socket with
      | some sk => (st.globals.erase sk.dmabuf_global).erase sk.drm_global
      | none => st.globals
    { st with
      devices := st.devices.filter (fun nd => decide (nd.1 ≠ node))
      timers := cancelTimers d.surfaces st.timers
      loopRegs := loopRegs2
      globals := globals1
      heads := st.heads.filter
        (fun h => ! d.surfaces.any (fun cs => cs.2.output.id == h)) }

/-- `State::device_removed`.  The teardown is unconditional (even when the
session is inactive, to release resources); the configuration
read/merge/write cycle runs only when the session is active; the result is
always `Ok(())`. -/
def device_removed (st : KmsState) (node : DrmNode) : KmsState × KOut Unit :=
  let st1 := removeDeviceState st node
  ({ st1 with
     configCycles := st1.configCycles + (if st1.sessionActive then 1 else 0) },
   KOut.ok ())

/-- An inactive-session sample state, plus concrete external outcomes. -/
def stInactive : KmsState := { st1080 with sessionActive := false }

def sxSample : SetupExt :=
  { crtcOk := true, crtcMode := some mode6000, vrrResult := some false,
    interfaceName := some "DP-1", edidInfo := some ("MK", "MD"),
    physSize := some (600, 340) }

def aextSample : AddExt :=
  { openOk := true, drmOk := true, supportsAtomic := true, gbmOk := true,
    eglOk := true, renderNode := some 0, registerOk := true, socketOk := true,
    hardware := [(1, 0)], connectors := [(1, [mode5994, mode6000, mode7500])],
    setups := fun _ _ => sxSample, applyExt := extSample, globalSpaceW := 0 }

def cextSample : ChangeExt :=
  { hardware := [(1, 0)], setups := fun _ _ => sxSample, applyExt := extSample,
    globalSpaceW := 0 }

/- ----------------------------------------------------------------
   Theorems
   ---------------------------------------------------------------- -/
example : render_node_for_output 0 [1, 1, 1] = 1 := by decide
example : render_node_for_output 0 [1, 1] = 0 := by decide
example : render_node_for_output 0 [1, 1, 0] = 0 := by decide
example : render_node_for_output 0 [1, 1, 2, 2] = 2 := by decide
example : tally [1, 1, 2, 2] = [(1, 2), (2, 2)] := by decide

theorem tallyInsert_cnt (acc : List (DrmNode × Nat)) (n k : DrmNode) :
    cnt (tallyInsert acc n) k = cnt acc k + (if k = n then 1 else 0) := by
  induction acc with
  | nil =>
    by_cases h : n = k
    · subst h; simp [tallyInsert, cnt]
    · have h2 : ¬ k = n := fun hh => h hh.symm
      simp [tallyInsert, cnt, h, h2]
  | cons p rest ih =>
    obtain ⟨k₀, c⟩ := p
    by_cases h0 : k₀ = n
    · subst h0
      by_cases hk : k₀ = k
      · subst hk; simp [tallyInsert, cnt]
      · have h2 : ¬ k = k₀ := fun h => hk h.symm
        simp [tallyInsert, cnt, hk, h2]
    · by_cases hk : k₀ = k
      · subst hk
        simp [tallyInsert, cnt, h0]
      · simp [tallyInsert, cnt, h0, hk, ih]

theorem tally_foldl_cnt (ns : List DrmNode) :
    ∀ (acc : List (DrmNode × Nat)) (k : DrmNode),
      cnt (ns.foldl tallyInsert acc) k = cnt acc k + ns.count k := by
  induction ns with
  | nil => intro acc k; simp
  | cons n ns ih =>
    intro acc k
    rw [List.foldl_cons, ih (tallyInsert acc n) k, tallyInsert_cnt]
    by_cases h : k = n
    · subst h; simp [List.count_cons]; omega
    · have h2 : ¬ k = n := h
      simp [List.count_cons, h2]

/-- `cnt (tally ns) k` is the number of occurrences of `k` in `ns`. -/
theorem tally_cnt (ns : List DrmNode) (k : DrmNode) :
    cnt (tally ns) k = ns.count k := by
  simpa [cnt] using tally_foldl_cnt ns [] k

theorem tallyInsert_keys (acc : List (DrmNode × Nat)) (n : DrmNode) :
    (tallyInsert acc n).map Prod.fst =
      if n ∈ acc.map Prod.fst then acc.map Prod.fst else acc.map Prod.fst ++ [n] := by
  induction acc with
  | nil => simp [tallyInsert]
  | cons p rest ih =>
    obtain ⟨k₀, c⟩ := p
    by_cases h0 : k₀ = n
    · subst h0; simp [tallyInsert]
    · have : ¬ n = k₀ := fun h => h0 h.symm
      by_cases hmem : n ∈ rest.map Prod.fst <;>
        simp [tallyInsert, h0, this, hmem, ih]

theorem tallyInsert_keys_nodup (acc : List (DrmNode × Nat)) (n : DrmNode)
    (h : (acc.map Prod.fst).Nodup) : ((tallyInsert acc n).map Prod.fst).Nodup := by
  rw [tallyInsert_keys]
  by_cases hmem : n ∈ acc.map Prod.fst
  · simpa [hmem] using h
  · rw [if_neg hmem]
    refine List.Nodup.append h (List.nodup_singleton n) ?_
    intro a ha hb
    exact hmem (List.mem_singleton.mp hb ▸ ha)

theorem tallyInsert_mem_keys (acc : List (DrmNode × Nat)) (n k : DrmNode) :
    k ∈ (tallyInsert acc n).map Prod.fst ↔ k ∈ acc.map Prod.fst ∨ k = n := by
  rw [tallyInsert_keys]
  by_cases hmem : n ∈ acc.map Prod.fst
  · simp only [hmem, if_true]
    constructor
    · exact Or.inl
    · rintro (h | rfl) <;> [exact h; exact hmem]
  · simp [hmem]

theorem tally_foldl_keys_nodup (ns : List DrmNode) :
    ∀ acc : List (DrmNode × Nat), (acc.map Prod.fst).Nodup →
      ((ns.foldl tallyInsert acc).map Prod.fst).Nodup := by
  induction ns with
  | nil => intro acc h; simpa using h
  | cons n ns ih =>
    intro acc h
    simpa using ih (tallyInsert acc n) (tallyInsert_keys_nodup acc n h)

/-- The tally's keys are distinct (it models a hash map). -/
theorem tally_keys_nodup (ns : List DrmNode) : ((tally ns).map Prod.fst).Nodup :=
  tally_foldl_keys_nodup ns [] (by simp)

theorem tally_foldl_mem_keys (ns : List DrmNode) :
    ∀ (acc : List (DrmNode × Nat)) (k : DrmNode),
      k ∈ (ns.foldl tallyInsert acc).map Prod.fst ↔ k ∈ acc.map Prod.fst ∨ k ∈ ns := by
  induction ns with
  | nil => intro acc k; simp
  | cons n ns ih =>
    intro acc k
    have := ih (tallyInsert acc n) k
    rw [List.foldl_cons, this, tallyInsert_mem_keys]
    constructor
    · rintro ((h | rfl) | h)
      · exact Or.inl h
      · exact Or.inr (List.mem_cons_self _ _)
      · exact Or.inr (List.mem_cons_of_mem _ h)
    · rintro (h | h)
      · exact Or.inl (Or.inl h)
      · rcases List.mem_cons.mp h with rfl | h
        · exact Or.inl (Or.inr rfl)
        · exact Or.inr h

/-- A node appears in the tally exactly when it appears in the preference list. -/
theorem tally_mem_keys (ns : List DrmNode) (k : DrmNode) :
    k ∈ (tally ns).map Prod.fst ↔ k ∈ ns := by
  simpa [tally] using tally_foldl_mem_keys ns [] k

/-- In a key-distinct association list, an entry's value is what `cnt` reads. -/
theorem mem_cnt (acc : List (DrmNode × Nat)) (k : DrmNode) (c : Nat)
    (hnd : (acc.map Prod.fst).Nodup) (hmem : (k, c) ∈ acc) : cnt acc k = c := by
  induction acc with
  | nil => cases hmem
  | cons p rest ih =>
    obtain ⟨k₀, c₀⟩ := p
    rcases List.mem_cons.mp hmem with h | h
    · have h1 : k = k₀ := congrArg Prod.fst h
      have h2 : c = c₀ := congrArg Prod.snd h
      subst h1; subst h2
      simp [cnt]
    · have hk : k₀ ≠ k := by
        rintro rfl
        have hmap : k₀ ∈ rest.map Prod.fst := List.mem_map_of_mem Prod.fst h
        simp only [List.map_cons, List.nodup_cons] at hnd
        exact absurd hmap hnd.1
      have hrest : (rest.map Prod.fst).Nodup := by
        simp only [List.map_cons, List.nodup_cons] at hnd
        exact hnd.2
      simp [cnt, hk, ih hrest h]

/-- The initial accumulator never exceeds the fold's result. -/
theorem foldl_maxStep_init_le (xs : List (DrmNode × Nat)) :
    ∀ x : DrmNode × Nat, x.2 ≤ (xs.foldl maxStep x).2 := by
  induction xs with
  | nil => intro x; simp
  | cons y xs ih =>
    intro x
    have h1 : x.2 ≤ (maxStep x y).2 := by
      by_cases h : x.2 > y.2
      · simp [maxStep, h]
      · simp [maxStep, h]; omega
    exact le_trans h1 (ih (maxStep x y))

/-- The `reduce` fold keeps the later entry on equal counts: its result is the
last entry of the list that attains the maximal count. -/
theorem foldl_maxStep_decomp (xs : List (DrmNode × Nat)) :
    ∀ x : DrmNode × Nat,
      ∃ l₁ l₂, x :: xs = l₁ ++ (xs.foldl maxStep x) :: l₂
        ∧ (∀ p ∈ l₁, p.2 ≤ (xs.foldl maxStep x).2)
        ∧ (∀ p ∈ l₂, p.2 < (xs.foldl maxStep x).2) := by
  induction xs with
  | nil =>
    intro x
    exact ⟨[], [], by simp, by simp, by simp⟩
  | cons y xs ih =>
    intro x
    have hfold : (y :: xs).foldl maxStep x = xs.foldl maxStep (maxStep x y) := by simp
    by_cases hxy : x.2 > y.2
    · have hstep : maxStep x y = x := by simp [maxStep, hxy]
      obtain ⟨l₁, l₂, heq, hle, hlt⟩ := ih x
      rw [hfold, hstep]
      cases l₁ with
      | nil =>
        simp only [List.nil_append] at heq
        injection heq with h1 h2
        refine ⟨[], y :: xs, ?_, by simp, ?_⟩
        · simp [← h1]
        · intro p hp
          rcases List.mem_cons.mp hp with rfl | hp
          · rw [← h1]; exact hxy
          · exact hlt p (h2 ▸ hp)
      | cons z l₁' =>
        rw [List.cons_append] at heq
        injection heq with h1 h2
        refine ⟨x :: y :: l₁', l₂, ?_, ?_, hlt⟩
        · rw [List.cons_append, List.cons_append, ← h2]
        · intro p hp
          rcases List.mem_cons.mp hp with rfl | hp
          · exact foldl_maxStep_init_le xs p
          rcases List.mem_cons.mp hp with rfl | hp
          · have hx : x.2 ≤ (xs.foldl maxStep x).2 := foldl_maxStep_init_le xs x
            omega
          · exact hle p (List.mem_cons_of_mem _ hp)
    · have hstep : maxStep x y = y := by simp [maxStep, hxy]
      obtain ⟨l₁, l₂, heq, hle, hlt⟩ := ih y
      rw [hfold, hstep]
      refine ⟨x :: l₁, l₂, ?_, ?_, hlt⟩
      · rw [List.cons_append, ← heq]
      · intro p hp
        rcases List.mem_cons.mp hp with rfl | hp
        · have hy : y.2 ≤ (xs.foldl maxStep y).2 := foldl_maxStep_init_le xs y
          omega
        · exact hle p hp

/-- Entry counts never exceed the fold result's count. -/
theorem foldl_maxStep_le (xs : List (DrmNode × Nat)) (x : DrmNode × Nat)
    (p : DrmNode × Nat) (hp : p ∈ x :: xs) : p.2 ≤ (xs.foldl maxStep x).2 := by
  obtain ⟨l₁, l₂, heq, hle, hlt⟩ := foldl_maxStep_decomp xs x
  rw [heq] at hp
  rcases List.mem_append.mp hp with h | h
  · exact hle p h
  · rcases List.mem_cons.mp h with rfl | h
    · exact le_refl _
    · exact le_of_lt (hlt p h)

/-- The tally of a nonempty preference list is nonempty. -/
theorem tally_ne_nil (n : DrmNode) (ns : List DrmNode) (h : n ∈ ns) :
    tally ns ≠ [] := by
  intro hnil
  have := (tally_mem_keys ns n).mpr h
  rw [hnil] at this
  cases this

/-- C1 (counterexample).  The claim chooses the output's own target node
whenever fewer than 3 distinct client-preferred nodes are observed.  With
target node 0 and preference list [1, 1, 2, 2], only 2 distinct nodes are
observed, yet the source counts preferences with multiplicity
(`nodes.len() = 4 ≥ 3`) and runs the majority vote, returning node 2 (the
fold also keeps the later of the two equally-frequent nodes), not 0. -/
theorem render_node_for_output_claim_counterexample :
    countDistinct [1, 1, 2, 2] < MAX_CPU_COPIES
    ∧ render_node_for_output 0 [1, 1, 2, 2] ≠ 0 := by decide

/-- C1 (amended).  Render-node selection chooses the output's own target node
whenever the target node is among the client preferences or fewer than 3
client preferences (counted with multiplicity, `nodes.len()`) are observed;
otherwise it chooses a most frequently preferred node, with ties broken in
favor of the node whose entry occurs last in the tally, the tally being
iterated in first-occurrence order of the preference list. -/
theorem render_node_for_output_amended (target_node : DrmNode) (nodes : List DrmNode) :
    ((target_node ∈ nodes ∨ nodes.length < MAX_CPU_COPIES) →
      render_node_for_output target_node nodes = target_node)
    ∧ (target_node ∉ nodes → MAX_CPU_COPIES ≤ nodes.length →
      render_node_for_output target_node nodes ∈ nodes
      ∧ (∀ n ∈ nodes,
          nodes.count n ≤ nodes.count (render_node_for_output target_node nodes))
      ∧ ∃ l₁ l₂,
          tally nodes
            = l₁ ++ (render_node_for_output target_node nodes,
                nodes.count (render_node_for_output target_node nodes)) :: l₂
          ∧ (∀ p ∈ l₁, p.2 ≤ nodes.count (render_node_for_output target_node nodes))
          ∧ (∀ p ∈ l₂, p.2 < nodes.count (render_node_for_output target_node nodes))) := by
  constructor
  · intro h
    simp [render_node_for_output, h]
  · intro hmem hlen
    have hcond : ¬ (target_node ∈ nodes ∨ nodes.length < MAX_CPU_COPIES) := by
      rintro (h | h)
      · exact hmem h
      · omega
    have hne : nodes ≠ [] := by
      intro h; rw [h] at hlen; simp [MAX_CPU_COPIES] at hlen
    obtain ⟨n0, hn0⟩ := List.exists_mem_of_ne_nil nodes hne
    have htne : tally nodes ≠ [] := tally_ne_nil n0 nodes hn0
    obtain ⟨t, ts, hts⟩ := List.exists_cons_of_ne_nil htne
    have hred : reduceMaxCount (tally nodes) = some (ts.foldl maxStep t) := by
      rw [hts]; rfl
    obtain ⟨r, hr⟩ : ∃ r, ts.foldl maxStep t = r := ⟨_, rfl⟩
    rw [hr] at hred
    have hout : render_node_for_output target_node nodes = r.1 := by
      rw [render_node_for_output, if_neg hcond, hred]
    have hrmem : r ∈ tally nodes := by
      obtain ⟨l₁, l₂, heq, _, _⟩ := foldl_maxStep_decomp ts t
      rw [hr] at heq
      rw [hts, heq]
      exact List.mem_append.mpr (Or.inr (List.mem_cons_self _ _))
    have hrkey : r.1 ∈ nodes := by
      have : r.1 ∈ (tally nodes).map Prod.fst := List.mem_map_of_mem Prod.fst hrmem
      exact (tally_mem_keys nodes r.1).mp this
    have hrcnt : r.2 = nodes.count r.1 := by
      have h1 : cnt (tally nodes) r.1 = r.2 :=
        mem_cnt (tally nodes) r.1 r.2 (tally_keys_nodup nodes) (by simpa using hrmem)
      rw [← h1, tally_cnt]
    refine ⟨hout ▸ hrkey, ?_, ?_⟩
    · intro n hn
      have hkey : n ∈ (tally nodes).map Prod.fst := (tally_mem_keys nodes n).mpr hn
      obtain ⟨p, hp, hpfst⟩ := List.mem_map.mp hkey
      have hpval : p.2 = nodes.count n := by
        have := mem_cnt (tally nodes) p.1 p.2 (tally_keys_nodup nodes) (by simpa using hp)
        rw [← this, hpfst, tally_cnt]
      have hle : p.2 ≤ r.2 := by
        rw [← hr]
        apply foldl_maxStep_le ts t
        rw [hts] at hp
        exact hp
      rw [hout, ← hrcnt, ← hpval]
      exact hle
    · obtain ⟨l₁, l₂, heq, hle, hlt⟩ := foldl_maxStep_decomp ts t
      rw [hr] at heq hle hlt
      refine ⟨l₁, l₂, ?_, ?_, ?_⟩
      · rw [hts, heq, hout]
        have : (r.1, nodes.count r.1) = r := by
          rw [← hrcnt]
        rw [this]
      · intro p hp
        rw [hout, ← hrcnt]
        exact hle p hp
      · intro p hp
        rw [hout, ← hrcnt]
        exact hlt p hp

/-- C1 witness: the amended theorem evaluated at concrete inputs: preference
list [1, 1, 2, 2, 3] with target 0 (vote runs, result is a member of the
list), and [1, 1] with target 0 (under-threshold, target chosen). -/
theorem render_node_for_output_amended_witness :
    render_node_for_output 0 [1, 1, 2, 2, 3] ∈ [1, 1, 2, 2, 3]
    ∧ render_node_for_output 0 [1, 1] = 0 :=
  ⟨((render_node_for_output_amended 0 [1, 1, 2, 2, 3]).2 (by decide) (by decide)).1,
   (render_node_for_output_amended 0 [1, 1]).1 (Or.inr (by decide))⟩

theorem foldl_minStep_init_ge (key : Mode → Nat) (xs : List Mode) :
    ∀ x : Mode, key (xs.foldl (minStep key) x) ≤ key x := by
  induction xs with
  | nil => intro x; simp
  | cons y xs ih =>
    intro x
    have h1 : key (minStep key x y) ≤ key x := by
      by_cases h : key y < key x
      · simp [minStep, h]; omega
      · simp [minStep, h]
    exact le_trans (ih (minStep key x y)) h1

/-- Rust's `min_by_key` keeps the first minimal element: the fold's result is
preceded only by strictly larger keys and followed only by no-smaller keys. -/
theorem foldl_minStep_decomp (key : Mode → Nat) (xs : List Mode) :
    ∀ x : Mode,
      ∃ l₁ l₂, x :: xs = l₁ ++ (xs.foldl (minStep key) x) :: l₂
        ∧ (∀ m ∈ l₁, key (xs.foldl (minStep key) x) < key m)
        ∧ (∀ m ∈ l₂, key (xs.foldl (minStep key) x) ≤ key m) := by
  induction xs with
  | nil =>
    intro x
    exact ⟨[], [], by simp, by simp, by simp⟩
  | cons y xs ih =>
    intro x
    have hfold : (y :: xs).foldl (minStep key) x = xs.foldl (minStep key) (minStep key x y) := by
      simp
    by_cases hxy : key y < key x
    · have hstep : minStep key x y = y := by simp [minStep, hxy]
      obtain ⟨l₁, l₂, heq, hlt, hle⟩ := ih y
      rw [hfold, hstep]
      refine ⟨x :: l₁, l₂, ?_, ?_, hle⟩
      · rw [List.cons_append, ← heq]
      · intro m hm
        rcases List.mem_cons.mp hm with rfl | hm
        · have h1 : key (xs.foldl (minStep key) y) ≤ key y := foldl_minStep_init_ge key xs y
          omega
        · exact hlt m hm
    · have hstep : minStep key x y = x := by simp [minStep, hxy]
      obtain ⟨l₁, l₂, heq, hlt, hle⟩ := ih x
      rw [hfold, hstep]
      cases l₁ with
      | nil =>
        simp only [List.nil_append] at heq
        injection heq with h1 h2
        refine ⟨[], y :: xs, ?_, by simp, ?_⟩
        · simp [← h1]
        · intro m hm
          rcases List.mem_cons.mp hm with rfl | hm
          · rw [← h1]; omega
          · exact hle m (h2 ▸ hm)
      | cons z l₁' =>
        rw [List.cons_append] at heq
        injection heq with h1 h2
        refine ⟨x :: y :: l₁', l₂, ?_, ?_, hle⟩
        · rw [List.cons_append, List.cons_append, ← h2]
        · intro m hm
          rcases List.mem_cons.mp hm with rfl | hm
          · have h3 : key (xs.foldl (minStep key) m) < key z :=
              hlt z (List.mem_cons_self _ _)
            rw [← h1] at h3
            exact h3
          rcases List.mem_cons.mp hm with rfl | hm
          · have h3 : key (xs.foldl (minStep key) x) < key z := hlt z (List.mem_cons_self _ _)
            rw [← h1] at h3
            omega
          · exact hlt m (List.mem_cons_of_mem _ hm)

/-- The fold's key never exceeds any candidate's key. -/
theorem foldl_minStep_le (key : Mode → Nat) (xs : List Mode) (x m : Mode)
    (hm : m ∈ x :: xs) : key (xs.foldl (minStep key) x) ≤ key m := by
  obtain ⟨l₁, l₂, heq, hlt, hle⟩ := foldl_minStep_decomp key xs x
  rw [heq] at hm
  rcases List.mem_append.mp hm with h | h
  · exact le_of_lt (hlt m h)
  · rcases List.mem_cons.mp h with rfl | h
    · exact le_refl _
    · exact hle m h

/-- The fold's result is one of the candidates. -/
theorem foldl_minStep_mem (key : Mode → Nat) (xs : List Mode) (x : Mode) :
    xs.foldl (minStep key) x ∈ x :: xs := by
  obtain ⟨l₁, l₂, heq, _, _⟩ := foldl_minStep_decomp key xs x
  rw [heq]
  exact List.mem_append.mpr (Or.inr (List.mem_cons_self _ _))

theorem replaceOwnerSurf_self (oid : Nat) :
    ∀ (l : List (CrtcHandle × Surface)) (c : CrtcHandle) (s : Surface),
      findOwnerSurf oid l = some (c, s) → replaceOwnerSurf oid s l = l := by
  intro l
  induction l with
  | nil => intro c s h; cases h
  | cons cs rest ih =>
    intro c s h
    obtain ⟨c0, s0⟩ := cs
    by_cases h0 : s0.output.id = oid
    · simp [findOwnerSurf, h0] at h
      obtain ⟨h1, h2⟩ := h
      subst h1; subst h2
      simp [replaceOwnerSurf, h0]
    · simp [findOwnerSurf, h0] at h
      simp [replaceOwnerSurf, h0, ih c s h]

theorem replaceOwner_self (oid : Nat) :
    ∀ (l : List (DrmNode × Device)) (n : DrmNode) (d : Device) (c : CrtcHandle) (s : Surface),
      findOwner oid l = some (n, d, c, s) → replaceOwner oid s l = l := by
  intro l
  induction l with
  | nil => intro n d c s h; cases h
  | cons nd rest ih =>
    intro n d c s h
    obtain ⟨n0, d0⟩ := nd
    cases hf : findOwnerSurf oid d0.surfaces with
    | some cs0 =>
      obtain ⟨c0, s0⟩ := cs0
      rw [findOwner, hf] at h
      injection h with h1
      simp only [Prod.mk.injEq] at h1
      obtain ⟨-, -, -, hs⟩ := h1
      rw [replaceOwner, hf, ← hs, replaceOwnerSurf_self oid d0.surfaces c0 s0 hf]
    | none =>
      rw [findOwner, hf] at h
      rw [replaceOwner, hf, ih n d c s h]

example :
    [mode6000, mode7500].foldl (minStep (fun m => refreshKey 60000 m.refresh)) mode5994
      = mode6000 := by decide

/-- C2 (counterexample).  At a state whose enabled configuration names a
resolution no advertised mode matches, the call fails and leaves the state
unchanged, but the error it fails with is the source's "Unknown mode", not
the claimed "no matching mode". -/
theorem apply_config_claim_counterexample :
    apply_config_for_output stNoMatch extSample 7 false
      = (stNoMatch, KOut.error "Unknown mode")
    ∧ (KOut.error "Unknown mode" : KOut Bool) ≠ KOut.error "no matching mode" := by
  constructor
  · rfl
  · decide

/-- C2 (amended).  For an enabled output configuration owned by a tracked
device, the mode selection of `apply_config_for_output` filters the
connector's advertised modes to those whose size equals the configured
resolution exactly and folds Rust's `min_by_key` over the refresh-distance
key: when no mode matches, the call fails with the "Unknown mode" error and
the state is unchanged; when candidates `c :: cs` exist, the selected mode is
a candidate with minimal refresh distance to the configured target, and ties
are resolved in favor of the earliest candidate in enumeration order (all
candidates preceding the selected one have strictly larger distance). -/
theorem apply_config_mode_selection (st : KmsState) (ext : Externals) (oid : Nat)
    (n : DrmNode) (d : Device) (crtc : CrtcHandle) (s : Surface)
    (modes : List Mode) (target : Nat)
    (hfo : findOwner oid st.devices = some (n, d, crtc, s))
    (hen : s.output.config.enabled = true)
    (hconn : alookup d.connectors s.connector = some modes)
    (htar : s.output.config.refreshTarget = some target) :
    (modeCandidates modes s.output.config = [] →
      apply_config_for_output st ext oid false = (st, KOut.error "Unknown mode"))
    ∧ (∀ c cs, modeCandidates modes s.output.config = c :: cs →
        (cs.foldl (minStep (fun m => refreshKey target m.refresh)) c ∈ c :: cs)
        ∧ (∀ m ∈ c :: cs,
            refreshKey target
                (cs.foldl (minStep (fun m => refreshKey target m.refresh)) c).refresh
              ≤ refreshKey target m.refresh)
        ∧ ∃ l₁ l₂,
            c :: cs = l₁ ++ (cs.foldl (minStep (fun m => refreshKey target m.refresh)) c) :: l₂
            ∧ ∀ m ∈ l₁,
                refreshKey target
                    (cs.foldl (minStep (fun m => refreshKey target m.refresh)) c).refresh
                  < refreshKey target m.refresh) := by
  constructor
  · intro hcand
    have hsurf : applySurface d.connectors crtc s false ext
        = (s, none, KOut.error "Unknown mode") := by
      unfold applySurface
      simp only [hen, Bool.not_eq_true, hconn, hcand]
      simp
    unfold apply_config_for_output
    rw [hfo]
    simp only [hsurf, applyShellAct]
    rw [replaceOwner_self oid st.devices n d crtc s hfo]
  · intro c cs hcand
    refine ⟨foldl_minStep_mem _ cs c, ?_, ?_⟩
    · intro m hm
      exact foldl_minStep_le (fun m => refreshKey target m.refresh) cs c m hm
    · obtain ⟨l₁, l₂, heq, hlt, hle⟩ := foldl_minStep_decomp
        (fun m => refreshKey target m.refresh) cs c
      exact ⟨l₁, l₂, heq, hlt⟩

/-- C2 witness: the amended theorem at the concrete sample state (resolution
1920x1080, candidate refresh rates 59.94/60.00/75.00 Hz, target 60 Hz): the
selected mode is a candidate — and, concretely, exactly the 60.00 Hz one. -/
theorem apply_config_mode_selection_witness :
    [mode6000, mode7500].foldl (minStep (fun m => refreshKey 60000 m.refresh)) mode5994
      ∈ [mode5994, mode6000, mode7500]
    ∧ [mode6000, mode7500].foldl (minStep (fun m => refreshKey 60000 m.refresh)) mode5994
      = mode6000 :=
  ⟨((apply_config_mode_selection st1080 extSample 5 0 dev1080 0 surf1080
      [mode5994, mode6000, mode7500] 60000 rfl rfl rfl rfl).2
      mode5994 [mode6000, mode7500] rfl).1,
   by decide⟩

theorem applySurface_test_only (connectors : List (ConnHandle × List Mode))
    (crtc : CrtcHandle) (s : Surface) (ext : Externals) :
    ∃ out, applySurface connectors crtc s true ext = (s, none, out)
      ∧ out ≠ KOut.ok true := by
  by_cases hen : s.output.config.enabled = true
  · cases hlk : alookup connectors s.connector with
    | none =>
      exact ⟨KOut.error "get_connector failed",
        by simp [applySurface, hen, hlk], by simp⟩
    | some modes =>
      cases hcand : modeCandidates modes s.output.config with
      | nil =>
        exact ⟨KOut.error "Unknown mode",
          by simp [applySurface, hen, hlk, hcand], by simp⟩
      | cons c cs =>
        cases htar : s.output.config.refreshTarget with
        | none =>
          exact ⟨KOut.panicked, by simp [applySurface, hen, hlk, hcand, htar], by simp⟩
        | some t =>
          exact ⟨KOut.ok false, by simp [applySurface, hen, hlk, hcand, htar], by simp⟩
  · exact ⟨KOut.ok false, by simp [applySurface, hen], by simp⟩

/-- C5.  `apply_config_for_output` with `test_only = true` never changes the
backend state — no device, surface, swapchain, VRR flag, shell set, timer or
token changes, whatever the configuration or the external outcomes — and
never reports `recreated`, so it never schedules a render. -/
theorem apply_config_test_only (st : KmsState) (ext : Externals) (oid : Nat) :
    (apply_config_for_output st ext oid true).1 = st
    ∧ (apply_config_for_output st ext oid true).2 ≠ KOut.ok true := by
  unfold apply_config_for_output
  cases hfo : findOwner oid st.devices with
  | none => exact ⟨rfl, by simp⟩
  | some q =>
    obtain ⟨n, d, crtc, s⟩ := q
    obtain ⟨out, hout, hne⟩ := applySurface_test_only d.connectors crtc s ext
    simp only [hout]
    have hrepl := replaceOwner_self oid st.devices n d crtc s hfo
    cases out with
    | ok b =>
      cases b with
      | true => exact absurd rfl hne
      | false => exact ⟨by simp [applyShellAct, hrepl], by simp⟩
    | error e => exact ⟨by simp [applyShellAct, hrepl], by simp⟩
    | panicked => exact ⟨by simp [applyShellAct, hrepl], by simp⟩

theorem findOwnerSurf_eq_none (oid : Nat) :
    ∀ l : List (CrtcHandle × Surface),
      (∀ cs ∈ l, cs.2.output.id ≠ oid) → findOwnerSurf oid l = none := by
  intro l
  induction l with
  | nil => intro h; rfl
  | cons cs rest ih =>
    intro h
    obtain ⟨c, s⟩ := cs
    have h1 : s.output.id ≠ oid := h (c, s) (List.mem_cons_self _ _)
    simp only [findOwnerSurf, if_neg h1]
    exact ih fun cs hcs => h cs (List.mem_cons_of_mem _ hcs)

theorem findOwner_eq_none (oid : Nat) :
    ∀ l : List (DrmNode × Device),
      (∀ nd ∈ l, ∀ cs ∈ nd.2.surfaces, cs.2.output.id ≠ oid) →
      findOwner oid l = none := by
  intro l
  induction l with
  | nil => intro h; rfl
  | cons nd rest ih =>
    intro h
    obtain ⟨n, d⟩ := nd
    have h1 : findOwnerSurf oid d.surfaces = none :=
      findOwnerSurf_eq_none oid d.surfaces (h (n, d) (List.mem_cons_self _ _))
    simp only [findOwner, h1]
    exact ih fun nd hnd => h nd (List.mem_cons_of_mem _ hnd)

/-- C10.  For a logical Output not owned by any tracked device's surface,
`apply_config_for_output` succeeds, reports nothing recreated (hence
schedules no render) and leaves the whole backend state unchanged; only the
external `shell.refresh_outputs()` query-refresh runs. -/
theorem apply_config_unowned (st : KmsState) (ext : Externals) (oid : Nat)
    (test_only : Bool)
    (h : ∀ nd ∈ st.devices, ∀ cs ∈ nd.2.surfaces, cs.2.output.id ≠ oid) :
    apply_config_for_output st ext oid test_only = (st, KOut.ok false) := by
  unfold apply_config_for_output
  rw [findOwner_eq_none oid st.devices h]

/-- C10 witness: the theorem applied to the sample state, whose only tracked
output has id 5, asked about an untracked output id 9. -/
theorem apply_config_unowned_witness :
    apply_config_for_output st1080 extSample 9 false = (st1080, KOut.ok false) :=
  apply_config_unowned st1080 extSample 9 false (by decide)

/-- Whether `scheduleSurfs` finds an owning surface does not depend on the
token: it fails exactly when no surface publishes the output. -/
theorem scheduleSurfs_none_iff (tok : TokenId) (oid : Nat) :
    ∀ l : List (CrtcHandle × Surface),
      scheduleSurfs tok oid l = none ↔ findOwnerSurf oid l = none := by
  intro l
  induction l with
  | nil => simp [scheduleSurfs, findOwnerSurf]
  | cons cs rest ih =>
    obtain ⟨c, s⟩ := cs
    by_cases hid : s.output.id = oid
    · by_cases hsn : s.surface.isNone
      · simp [scheduleSurfs, findOwnerSurf, hid, hsn]
      · by_cases hp : s.pending
        · simp [scheduleSurfs, findOwnerSurf, hid, hsn, hp]
        · simp [scheduleSurfs, findOwnerSurf, hid, hsn, hp]
    · simp [scheduleSurfs, findOwnerSurf, hid, ih]

theorem scheduleSurfs_registered (tok tok' : TokenId) (oid : Nat) :
    ∀ (l l' : List (CrtcHandle × Surface)),
      scheduleSurfs tok oid l = some (l', true) →
      scheduleSurfs tok' oid l' = some (l', false) := by
  intro l
  induction l with
  | nil => intro l' h; cases h
  | cons cs rest ih =>
    intro l' h
    obtain ⟨c, s⟩ := cs
    by_cases hid : s.output.id = oid
    · by_cases hsn : s.surface.isNone
      · simp [scheduleSurfs, hid, hsn] at h
      · by_cases hp : s.pending
        · simp [scheduleSurfs, hid, hsn, hp] at h
        · simp only [scheduleSurfs, if_pos hid] at h
          rw [if_neg hsn, if_neg hp] at h
          injection h with h1
          have hl : (c, { s with pending := true, render_timer_token := some tok }) :: rest
              = l' := congrArg Prod.fst h1
          rw [← hl]
          simp [scheduleSurfs, hid, hsn]
    · cases hrest : scheduleSurfs tok oid rest with
      | none => simp [scheduleSurfs, hid, hrest] at h
      | some lb =>
        obtain ⟨lr, b⟩ := lb
        simp only [scheduleSurfs, if_neg hid, hrest, Option.map_some] at h
        injection h with h1
        have hl : (c, s) :: lr = l' := congrArg Prod.fst h1
        have hb : b = true := congrArg Prod.snd h1
        rw [hb] at hrest
        have h2 := ih lr hrest
        rw [← hl]
        simp [scheduleSurfs, hid, h2]

theorem scheduleDevs_registered (tok tok' : TokenId) (oid : Nat) :
    ∀ (l l' : List (DrmNode × Device)),
      scheduleDevs tok oid l = some (l', true) →
      scheduleDevs tok' oid l' = some (l', false) := by
  intro l
  induction l with
  | nil => intro l' h; cases h
  | cons nd rest ih =>
    intro l' h
    obtain ⟨n, d⟩ := nd
    cases hs : scheduleSurfs tok oid d.surfaces with
    | some lb =>
      obtain ⟨surfs, b⟩ := lb
      simp only [scheduleDevs, hs] at h
      injection h with h1
      have hl : (n, { d with surfaces := surfs }) :: rest = l' := congrArg Prod.fst h1
      have hb : b = true := congrArg Prod.snd h1
      rw [hb] at hs
      have h2 := scheduleSurfs_registered tok tok' oid d.surfaces surfs hs
      rw [← hl]
      simp [scheduleDevs, h2]
    | none =>
      have hs' : scheduleSurfs tok' oid d.surfaces = none :=
        (scheduleSurfs_none_iff tok' oid d.surfaces).mpr
          ((scheduleSurfs_none_iff tok oid d.surfaces).mp hs)
      cases hrest : scheduleDevs tok oid rest with
      | none => simp [scheduleDevs, hs, hrest] at h
      | some lb =>
        obtain ⟨lr, b⟩ := lb
        simp only [scheduleDevs, hs, hrest, Option.map_some] at h
        injection h with h1
        have hl : (n, d) :: lr = l' := congrArg Prod.fst h1
        have hb : b = true := congrArg Prod.snd h1
        rw [hb] at hrest
        have h2 := ih lr hrest
        rw [← hl]
        simp [scheduleDevs, hs', h2]

theorem scheduleSurfs_noop (tok : TokenId) (oid : Nat) :
    ∀ (l : List (CrtcHandle × Surface)) (c : CrtcHandle) (s : Surface),
      findOwnerSurf oid l = some (c, s) → (s.surface = none ∨ s.pending = true) →
      scheduleSurfs tok oid l = some (l, false) := by
  intro l
  induction l with
  | nil => intro c s h; cases h
  | cons cs rest ih =>
    intro c s h hcond
    obtain ⟨c0, s0⟩ := cs
    by_cases hid : s0.output.id = oid
    · simp only [findOwnerSurf, if_pos hid] at h
      injection h with h1
      have hs : s0 = s := congrArg Prod.snd h1
      rcases hcond with hnone | hpend
      · rw [← hs] at hnone
        simp [scheduleSurfs, hid, hnone]
      · rw [← hs] at hpend
        by_cases hsn : s0.surface.isNone
        · simp [scheduleSurfs, hid, hsn]
        · simp [scheduleSurfs, hid, hsn, hpend]
    · simp only [findOwnerSurf, if_neg hid] at h
      have h2 := ih c s h hcond
      simp [scheduleSurfs, hid, h2]

theorem scheduleDevs_noop (tok : TokenId) (oid : Nat) :
    ∀ (l : List (DrmNode × Device)) (n : DrmNode) (d : Device) (c : CrtcHandle) (s : Surface),
      findOwner oid l = some (n, d, c, s) → (s.surface = none ∨ s.pending = true) →
      scheduleDevs tok oid l = some (l, false) := by
  intro l
  induction l with
  | nil => intro n d c s h; cases h
  | cons nd rest ih =>
    intro n d c s h hcond
    obtain ⟨n0, d0⟩ := nd
    cases hf : findOwnerSurf oid d0.surfaces with
    | some cs0 =>
      obtain ⟨c0, s0⟩ := cs0
      rw [findOwner, hf] at h
      injection h with h1
      simp only [Prod.mk.injEq] at h1
      obtain ⟨-, -, -, hs⟩ := h1
      rw [← hs] at hcond
      have h2 := scheduleSurfs_noop tok oid d0.surfaces c0 s0 hf hcond
      simp [scheduleDevs, h2]
    | none =>
      rw [findOwner, hf] at h
      have hsn := (scheduleSurfs_none_iff tok oid d0.surfaces).mpr hf
      have h2 := ih n d c s h hcond
      simp [scheduleDevs, hsn, h2]

/-- C4.  `schedule_render` is a no-op when the owning surface has no
swapchain or a pending render; a second call right after a first is always a
no-op (idempotence), and a single call registers at most one render timer. -/
theorem schedule_render_noop_idempotent (st : KmsState) (oid : Nat) :
    (∀ n d c s, findOwner oid st.devices = some (n, d, c, s) →
      (s.surface = none ∨ s.pending = true) → schedule_render st oid = st)
    ∧ schedule_render (schedule_render st oid) oid = schedule_render st oid
    ∧ (schedule_render st oid).timers.length ≤ st.timers.length + 1 := by
  refine ⟨?_, ?_, ?_⟩
  · intro n d c s hfo hcond
    have h := scheduleDevs_noop st.nextToken oid st.devices n d c s hfo hcond
    simp [schedule_render, h]
  · cases h : scheduleDevs st.nextToken oid st.devices with
    | none => simp [schedule_render, h]
    | some lb =>
      obtain ⟨devs, b⟩ := lb
      cases b with
      | false => simp [schedule_render, h]
      | true =>
        have h2 := scheduleDevs_registered st.nextToken (st.nextToken + 1) oid
          st.devices devs h
        simp only [schedule_render, h]
        simp [schedule_render, h2]
  · cases h : scheduleDevs st.nextToken oid st.devices with
    | none => simp [schedule_render, h]
    | some lb =>
      obtain ⟨devs, b⟩ := lb
      cases b with
      | false => simp [schedule_render, h]
      | true => simp [schedule_render, h]

/-- C4 witness: at the sample state with a swapchain, two successive
schedule calls equal one (the second is a no-op); at the sample state whose
surface has no swapchain, a single call is already a no-op. -/
theorem schedule_render_noop_idempotent_witness :
    schedule_render (schedule_render stReady 5) 5 = schedule_render stReady 5
    ∧ schedule_render st1080 5 = st1080 :=
  ⟨(schedule_render_noop_idempotent stReady 5).2.1,
   (schedule_render_noop_idempotent st1080 5).1 0 dev1080 0 surf1080 rfl (Or.inl rfl)⟩

/-- C8 (counterexample).  When buffer acquisition (`next_buffer`) fails, the
render fails — but the swapchain's buffer state is NOT reset (its reset
count is untouched); the claim asserts a reset on every failure. -/
theorem render_failure_claim_counterexample :
    (render_output surfReady extNoBuf).2 = some "Failed to allocate buffer"
    ∧ (render_output surfReady extNoBuf).1.surface = some swSample
    ∧ swSample.resetCount = 0 := by decide

/-- C8 (amended).  On a composition failure the swapchain's buffer state is
reset; on a buffer-acquisition failure it is not (only the independent
`needs_buffer_reset` check can reset it); and in every failure case the
render timer is rescheduled to fire after exactly one refresh interval
(1/refresh_rate seconds), the timer registration staying in place, instead
of escalating the error or retrying immediately. -/
theorem render_failure_amended (s : Surface) (ext : Externals) (sw : Swapchain)
    (hsw : s.surface = some sw) :
    (ext.nextBuffer = false →
      (render_output s ext).2 = some "Failed to allocate buffer"
      ∧ (render_output s ext).1.surface.map Swapchain.resetCount
          = some (sw.resetCount + (if ext.needsBufferReset then 1 else 0)))
    ∧ (ext.nextBuffer = true → ext.bindOk = true → ext.renderOk = false →
      (render_output s ext).2 = some "Rendering failed"
      ∧ (render_output s ext).1.surface.map Swapchain.resetCount
          = some (sw.resetCount + (if ext.needsBufferReset then 1 else 0) + 1))
    ∧ (∀ st node crtc token s' e,
        lookupSurface st.devices node crtc = some s →
        render_output s ext = (s', some e) →
        fireTimer st ext node crtc token
          = ({ st with devices := setDevSurf node crtc s' st.devices },
             TimeoutAction.toDuration (1 / (s'.refresh_rate : ℚ)))) := by
  refine ⟨?_, ?_, ?_⟩
  · intro hnb
    cases hnr : ext.needsBufferReset with
    | false => constructor <;> simp [render_output, hsw, hnb, hnr]
    | true => constructor <;> simp [render_output, hsw, hnb, hnr]
  · intro hnb hbind hrok
    cases hnr : ext.needsBufferReset with
    | false => constructor <;> simp [render_output, hsw, hnb, hbind, hrok, hnr]
    | true => constructor <;> simp [render_output, hsw, hnb, hbind, hrok, hnr]
  · intro st node crtc token s' e hlk hro
    simp [fireTimer, hlk, hro]

/-- C8 witness: the amended theorem at the ready sample surface with a
failing buffer acquisition. -/
theorem render_failure_amended_witness :
    (render_output surfReady extNoBuf).2 = some "Failed to allocate buffer" :=
  ((render_failure_amended surfReady extNoBuf swSample rfl).1 rfl).1

/-- C3 (the invariant fails on the code).  Run the reachable event sequence
schedule_render; apply_config_for_output (output disabled, swapchain
dropped); timer fires.  The render timer is registered by the first step
(timers = [10]); the timer callback then finds no swapchain, succeeds,
and drops itself — without clearing `pending`.  Afterwards `pending = true`
with no registered timer, no swapchain and no in-flight frame, violating
`pending == true ⟺ a render timer/task is registered`; moreover every later
`schedule_render` is a no-op, so the output can never render again. -/
theorem pending_invariant_code_bug :
    (schedule_render stC3 5).timers = [10]
    ∧ ((lookupSurface (schedule_render stC3 5).devices 0 0).map Surface.pending
        = some true)
    ∧ (let st2 := (apply_config_for_output (schedule_render stC3 5) extSample 5 false).1
       let st3 := (fireTimer st2 extSample 0 0 10).1
       (fireTimer st2 extSample 0 0 10).2 = TimeoutAction.drop
       ∧ st3.timers = []
       ∧ (lookupSurface st3.devices 0 0).map Surface.pending = some true
       ∧ (lookupSurface st3.devices 0 0).map Surface.surface = some none
       ∧ schedule_render st3 5 = st3) := by
  refine ⟨by decide, by decide, by decide, by decide, by decide, by decide, ?_⟩
  decide

theorem alookup_eq_some {β : Type} (k : Nat) (v : β) :
    ∀ l : List (Nat × β), (l.map Prod.fst).Nodup →
      (alookup l k = some v ↔ (k, v) ∈ l) := by
  intro l
  induction l with
  | nil => intro h; simp [alookup]
  | cons p rest ih =>
    intro h
    obtain ⟨k0, v0⟩ := p
    simp only [List.map_cons, List.nodup_cons] at h
    by_cases hk : k0 = k
    · subst hk
      simp only [alookup, if_pos rfl]
      constructor
      · intro hv
        injection hv with hv
        subst hv
        exact List.mem_cons_self _ _
      · intro hmem
        rcases List.mem_cons.mp hmem with heq | hmem
        · have h2 : v0 = v := (congrArg Prod.snd heq).symm
          rw [h2]; simp
        · exact absurd (List.mem_map_of_mem Prod.fst hmem) h.1
    · simp only [alookup, if_neg hk]
      rw [ih h.2]
      constructor
      · exact List.mem_cons_of_mem _
      · intro hmem
        rcases List.mem_cons.mp hmem with heq | hmem
        · exact absurd (congrArg Prod.fst heq).symm hk
        · exact hmem

theorem alookup_eq_none {β : Type} (k : Nat) :
    ∀ l : List (Nat × β), (alookup l k = none ↔ ∀ v, (k, v) ∉ l) := by
  intro l
  induction l with
  | nil => simp [alookup]
  | cons p rest ih =>
    obtain ⟨k0, v0⟩ := p
    by_cases hk : k0 = k
    · subst hk
      simp only [alookup, if_pos rfl]
      constructor
      · intro h; cases h
      · intro h
        exact absurd (List.mem_cons_self _ _) (h v0)
    · simp only [alookup, if_neg hk]
      rw [ih]
      constructor
      · intro h v hmem
        rcases List.mem_cons.mp hmem with heq | hmem
        · exact hk (congrArg Prod.fst heq).symm
        · exact h v hmem
      · intro h v hmem
        exact h v (List.mem_cons_of_mem _ hmem)

/-- C6.  The enumeration diff returns as "added" exactly the fresh
(CRTC, connector) pairings whose CRTC either has no existing surface or an
existing surface bound to a different connector, and as "removed" exactly
the CRTCs of existing surfaces whose connector is no longer mapped to that
CRTC by the fresh enumeration.  The diff is a pure function of the device's
surface map and the fresh enumeration — the surface map is not modified.
(The key-distinctness hypotheses state that both views are maps, as the
source's `HashMap`s guarantee.) -/
theorem enumerate_surfaces_spec (d : Device) (config : List (ConnHandle × CrtcHandle))
    (hc : (config.map Prod.fst).Nodup)
    (hs : ((surfacePairs d).map Prod.fst).Nodup) :
    (∀ crtc conn,
      (crtc, conn) ∈ (enumerate_surfaces d config).added ↔
        ((conn, crtc) ∈ config ∧
          ∀ conn', (crtc, conn') ∈ surfacePairs d → conn' ≠ conn))
    ∧ (∀ crtc,
      crtc ∈ (enumerate_surfaces d config).removed ↔
        ∃ conn, (crtc, conn) ∈ surfacePairs d ∧
          ∀ crtc', (conn, crtc') ∈ config → crtc' ≠ crtc) := by
  constructor
  · intro crtc conn
    simp only [enumerate_surfaces, List.mem_map, List.mem_filter]
    constructor
    · rintro ⟨⟨pc, pk⟩, ⟨hmem, hcond⟩, heq⟩
      have hσ : pk = crtc := congrArg Prod.fst heq
      have hτ : pc = conn := congrArg Prod.snd heq
      refine ⟨by rw [← hσ, ← hτ]; exact hmem, ?_⟩
      intro conn' hmem'
      rw [← hσ] at hmem'
      cases hlk : alookup (surfacePairs d) pk with
      | none =>
        exact absurd hmem' ((alookup_eq_none pk (surfacePairs d)).mp hlk conn')
      | some c =>
        rw [hlk] at hcond
        have hcond' : c ≠ pc := of_decide_eq_true hcond
        have h3 : alookup (surfacePairs d) pk = some conn' :=
          (alookup_eq_some pk conn' (surfacePairs d) hs).mpr hmem'
        have h4 : c = conn' := Option.some.inj (hlk.symm.trans h3)
        rw [← hτ, ← h4]
        exact hcond'
    · rintro ⟨hmem, hall⟩
      refine ⟨(conn, crtc), ⟨hmem, ?_⟩, rfl⟩
      cases hlk : alookup (surfacePairs d) crtc with
      | none => rfl
      | some c =>
        have hcm : (crtc, c) ∈ surfacePairs d :=
          (alookup_eq_some crtc c (surfacePairs d) hs).mp hlk
        exact decide_eq_true (hall c hcm)
  · intro crtc
    simp only [enumerate_surfaces, List.mem_map, List.mem_filter]
    constructor
    · rintro ⟨⟨pk, pc⟩, ⟨hmem, hcond⟩, heq⟩
      refine ⟨pc, by rw [← heq]; exact hmem, ?_⟩
      intro crtc' hmem'
      cases hlk : alookup config pc with
      | none =>
        exact absurd hmem' ((alookup_eq_none pc config).mp hlk crtc')
      | some c =>
        rw [hlk] at hcond
        have hcond' : c ≠ pk := of_decide_eq_true hcond
        have h3 : alookup config pc = some crtc' :=
          (alookup_eq_some pc crtc' config hc).mpr hmem'
        have h4 : c = crtc' := Option.some.inj (hlk.symm.trans h3)
        rw [← heq, ← h4]
        exact hcond'
    · rintro ⟨conn, hmem, hall⟩
      refine ⟨(crtc, conn), ⟨hmem, ?_⟩, rfl⟩
      cases hlk : alookup config conn with
      | none => rfl
      | some c =>
        have hcm : (conn, c) ∈ config := (alookup_eq_some conn c config hc).mp hlk
        exact decide_eq_true (hall c hcm)

/-- C6 witness: the diff at the sample device (CRTC 0 bound to connector 1)
against a fresh enumeration mapping connector 1 to CRTC 2 and connector 3 to
CRTC 0: CRTC 0's pairing changed (connector 3 is an addition for it, and its
old pairing is removed), and CRTC 2 is newly paired. -/
theorem enumerate_surfaces_spec_witness :
    ((0, 3) ∈ (enumerate_surfaces devReady [(1, 2), (3, 0)]).added
      ↔ ((3, 0) ∈ [(1, 2), (3, 0)] ∧
          ∀ conn', (0, conn') ∈ surfacePairs devReady → conn' ≠ 3))
    ∧ (0, 3) ∈ (enumerate_surfaces devReady [(1, 2), (3, 0)]).added
    ∧ (enumerate_surfaces devReady [(1, 2), (3, 0)]).removed = [0] :=
  ⟨(enumerate_surfaces_spec devReady [(1, 2), (3, 0)] (by decide) (by decide)).1 0 3,
   by decide, by decide⟩

/-- C9.  `setup_surface` selects the active mode by falling back from the
CRTC's programmed mode to the driver-flagged preferred mode to the first
advertised mode; when the CRTC has no programmed mode, no mode is flagged
preferred and the advertised list is empty, the indexing
`conn_info.modes()[0]` panics (out-of-bounds) instead of returning an
error. -/
theorem setup_surface_mode_fallback (d : Device) (sx : SetupExt) (crtc : CrtcHandle)
    (conn : ConnHandle) (position : Int × Int) (oid : Nat) (modes : List Mode)
    (hcrtc : sx.crtcOk = true)
    (hconn : alookup d.connectors conn = some modes)
    (hif : ∃ i, sx.interfaceName = some i)
    (hed : ∃ e, sx.edidInfo = some e) :
    (∀ m, sx.crtcMode = some m → pickInitialMode sx.crtcMode modes = some m)
    ∧ (∀ p, sx.crtcMode = none → modes.find? (fun m => m.preferred) = some p →
        pickInitialMode sx.crtcMode modes = some p)
    ∧ (∀ x xs, sx.crtcMode = none → modes.find? (fun m => m.preferred) = none →
        modes = x :: xs → pickInitialMode sx.crtcMode modes = some x)
    ∧ (sx.crtcMode = none → modes = [] →
        setup_surface d sx crtc conn position oid = (d, KOut.panicked)) := by
  refine ⟨?_, ?_, ?_, ?_⟩
  · intro m hm
    simp [pickInitialMode, hm]
  · intro p hcm hp
    simp [pickInitialMode, hcm, hp]
  · intro x xs hcm hp hms
    rw [hms] at hp
    simp [pickInitialMode, hcm, hp, hms]
  · intro hcm hms
    obtain ⟨i, hi⟩ := hif
    obtain ⟨e, he⟩ := hed
    have hpick : pickInitialMode sx.crtcMode modes = none := by
      simp [pickInitialMode, hcm, hms]
    simp [setup_surface, hcrtc, hconn, hi, he, hpick]

/-- C9 witness: at the concrete empty-mode-list device, `setup_surface`
panics. -/
theorem setup_surface_mode_fallback_witness :
    setup_surface devEmptyConn sxEmpty 0 1 (0, 0) 6 = (devEmptyConn, KOut.panicked) :=
  (setup_surface_mode_fallback devEmptyConn sxEmpty 0 1 (0, 0) 6 [] rfl rfl
    ⟨"DP-1", rfl⟩ ⟨("MK", "MD"), rfl⟩).2.2.2 rfl rfl

theorem cancelTimers_cons (c : CrtcHandle × Surface)
    (rest : List (CrtcHandle × Surface)) (ts : List TokenId) :
    cancelTimers (c :: rest) ts
      = cancelTimers rest
          (match c.2.render_timer_token with
           | some t => ts.erase t
           | none => ts) := by
  cases htok : c.2.render_timer_token with
  | some t => simp [cancelTimers, htok]
  | none => simp [cancelTimers, htok]

theorem cancelTimers_not_mem_mono (t : TokenId) :
    ∀ (surfs : List (CrtcHandle × Surface)) (ts : List TokenId),
      t ∉ ts → t ∉ cancelTimers surfs ts := by
  intro surfs
  induction surfs with
  | nil => intro ts h; exact h
  | cons c rest ih =>
    intro ts h
    rw [cancelTimers_cons]
    cases htok : c.2.render_timer_token with
    | some t0 =>
      apply ih
      intro hmem
      exact h (List.mem_of_mem_erase hmem)
    | none => exact ih ts h

theorem cancelTimers_nodup :
    ∀ (surfs : List (CrtcHandle × Surface)) (ts : List TokenId),
      ts.Nodup → (cancelTimers surfs ts).Nodup := by
  intro surfs
  induction surfs with
  | nil => intro ts h; exact h
  | cons c rest ih =>
    intro ts h
    rw [cancelTimers_cons]
    cases htok : c.2.render_timer_token with
    | some t0 => exact ih (ts.erase t0) (h.erase t0)
    | none => exact ih ts h

/-- A token held by any of the listed surfaces is gone from a duplicate-free
registration list after `cancelTimers`. -/
theorem cancelTimers_not_mem (t : TokenId) :
    ∀ (surfs : List (CrtcHandle × Surface)) (ts : List TokenId), ts.Nodup →
      ∀ cs ∈ surfs, cs.2.render_timer_token = some t →
        t ∉ cancelTimers surfs ts := by
  intro surfs
  induction surfs with
  | nil => intro ts _ cs hcs; cases hcs
  | cons c0 rest ih =>
    intro ts hnd cs hcs htok
    rw [cancelTimers_cons]
    rcases List.mem_cons.mp hcs with rfl | hcs
    · rw [htok]
      apply cancelTimers_not_mem_mono
      intro hmem
      exact ((List.Nodup.mem_erase_iff hnd).mp hmem).1 rfl
    · cases h0 : c0.2.render_timer_token with
      | some t0 => exact ih (ts.erase t0) (hnd.erase t0) cs hcs htok
      | none => exact ih ts hnd cs hcs htok

theorem alookup_filter_ne {β : Type} (k : Nat) :
    ∀ l : List (Nat × β),
      alookup (l.filter (fun p => decide (p.1 ≠ k))) k = none := by
  intro l
  induction l with
  | nil => rfl
  | cons p rest ih =>
    obtain ⟨k0, v0⟩ := p
    by_cases hk : k0 = k
    · subst hk
      simpa using ih
    · simp only [List.filter_cons]
      rw [if_pos (by simpa using hk)]
      simp only [alookup, if_neg hk]
      exact ih

theorem removeDeviceState_fields (st : KmsState) (node : DrmNode) :
    (removeDeviceState st node).configCycles = st.configCycles
    ∧ (removeDeviceState st node).sessionActive = st.sessionActive := by
  unfold removeDeviceState
  cases alookup st.devices node <;> exact ⟨rfl, rfl⟩

theorem removeDeviceState_some (st : KmsState) (node : DrmNode) (d : Device)
    (h : alookup st.devices node = some d) :
    (removeDeviceState st node).devices
        = st.devices.filter (fun nd => decide (nd.1 ≠ node))
    ∧ (removeDeviceState st node).timers = cancelTimers d.surfaces st.timers := by
  unfold removeDeviceState
  rw [h]
  exact ⟨rfl, rfl⟩

/-- C7.  While the session is inactive, `device_added` and `device_changed`
return successfully without any state change.  `device_removed` is
unconditional: it always succeeds, the device is no longer tracked
afterwards, every render timer its surfaces held is deregistered — and the
configuration read/merge/write cycle runs exactly when the session is
active. -/
theorem session_gating (st : KmsState) (aext : AddExt) (cext : ChangeExt)
    (node : DrmNode) :
    (st.sessionActive = false →
      device_added st aext node = (st, KOut.ok ())
      ∧ device_changed st cext node = (st, KOut.ok ()))
    ∧ (device_removed st node).2 = KOut.ok ()
    ∧ alookup (device_removed st node).1.devices node = none
    ∧ (∀ d, alookup st.devices node = some d → st.timers.Nodup →
        ∀ cs ∈ d.surfaces, ∀ t, cs.2.render_timer_token = some t →
          t ∉ (device_removed st node).1.timers)
    ∧ (device_removed st node).1.configCycles
        = st.configCycles + (if st.sessionActive then 1 else 0) := by
  refine ⟨?_, rfl, ?_, ?_, ?_⟩
  · intro hin
    constructor
    · simp [device_added, hin]
    · simp [device_changed, hin]
  · show alookup (removeDeviceState st node).devices node = none
    cases hd : alookup st.devices node with
    | none =>
      unfold removeDeviceState
      rw [hd]
      exact hd
    | some d =>
      rw [(removeDeviceState_some st node d hd).1]
      exact alookup_filter_ne node st.devices
  · intro d hd hnd cs hcs t htok
    show t ∉ (removeDeviceState st node).timers
    rw [(removeDeviceState_some st node d hd).2]
    exact cancelTimers_not_mem t d.surfaces st.timers hnd cs hcs htok
  · show (removeDeviceState st node).configCycles
        + (if (removeDeviceState st node).sessionActive then 1 else 0)
      = st.configCycles + (if st.sessionActive then 1 else 0)
    rw [(removeDeviceState_fields st node).1, (removeDeviceState_fields st node).2]

/-- C7 witness: the gating theorem at the concrete inactive state —
Add and Change are no-ops, Remove still succeeds, stops tracking the
device, and skips the configuration cycle. -/
theorem session_gating_witness :
    device_added stInactive aextSample 0 = (stInactive, KOut.ok ())
    ∧ device_changed stInactive cextSample 0 = (stInactive, KOut.ok ())
    ∧ (device_removed stInactive 0).2 = KOut.ok ()
    ∧ alookup (device_removed stInactive 0).1.devices 0 = none
    ∧ (device_removed stInactive 0).1.configCycles
        = stInactive.configCycles + (if stInactive.sessionActive then 1 else 0) :=
  ⟨((session_gating stInactive aextSample cextSample 0).1 rfl).1,
   ((session_gating stInactive aextSample cextSample 0).1 rfl).2,
   (session_gating stInactive aextSample cextSample 0).2.1,
   (session_gating stInactive aextSample cextSample 0).2.2.1,
   (session_gating stInactive aextSample cextSample 0).2.2.2.2⟩

/-- C5 witness: the test-only theorem at the ready sample state. -/
theorem apply_config_test_only_witness :
    (apply_config_for_output stReady extSample 5 true).1 = stReady :=
  (apply_config_test_only stReady extSample 5).1
